import Mathlib

/-!
Shallow embedding of `src/market_analyzer.py` (daily stock analysis).

Python floats are modelled as rationals (`ℚ`); a pandas `NaN` cell is
`Option.none`; a call that may raise is an `Except Unit` value supplied as an
explicit argument.  The leverage-ratio computation sits exactly on its
`3.5` threshold, so there the IEEE-754 doubles are modelled faithfully:
`fl` rounds a rational to the nearest binary64 value (ties to even), each
arithmetic step of `(margin_balance / total_market_cap) * 100` rounds, and
`round(x, 2)` is the correctly rounded two-decimal value of the double.
The `"{:.xf}"` format specifiers round half to even on the exact value of
the double; they are modelled with round half up (`⌊x + 1/2⌋`), which
agrees with Python on every double (a format tie would need a denominator
that is not a power of two) and at every input evaluated here.
-/

set_option maxRecDepth 40000

/- Batteries marks the `Rat` field operations `@[irreducible]`; concrete
evaluation by `decide` needs them to unfold (the kernel ignores
reducibility attributes, so proofs are unaffected). -/
attribute [local semireducible] Rat.mul Rat.inv Rat.add Rat.sub

namespace MarketAnalyzer

/-- String containment on the underlying character lists: `listContains p l`
is `true` when `p` occurs as a contiguous run inside `l`. -/
def listContains (p : List Char) : List Char → Bool
  | [] => p.isEmpty
  | c :: t => p.isPrefixOf (c :: t) || listContains p t

/-- `strContains pat s`: `pat` occurs as a contiguous substring of `s`. -/
def strContains (pat s : String) : Bool :=
  listContains pat.data s.data

/-- Floor of a rational, written out so that it reduces inside the kernel
(`Int.fdiv` is floor division and every `Rat` is stored in lowest terms). -/
def ratFloor (q : ℚ) : ℤ := q.num.fdiv (q.den : ℤ)

/-- `2 ^ e` as a rational, for an integer exponent. -/
def pow2 (e : ℤ) : ℚ :=
  if 0 ≤ e then mkRat (2 ^ e.toNat) 1 else mkRat 1 (2 ^ (-e).toNat)

/-- `⌊log2 n⌋` by fuelled structural recursion (the kernel cannot unfold
the well-founded `Nat.log2`). -/
def natLog2Go : ℕ → ℕ → ℕ
  | 0, _ => 0
  | fuel + 1, n => if 2 ≤ n then natLog2Go fuel (n / 2) + 1 else 0

/-- `⌊log2 n⌋` for `1 ≤ n < 2^1100`: 1100 halvings cover every numerator
and denominator that can arise from binary64 values (whose exponents lie
within ±1074); beyond that range the program's double would overflow,
which is outside the modelled (normal) range. -/
def natLog2 (n : ℕ) : ℕ := natLog2Go 1100 n

/-- The nearest integer to `q`, ties to even (IEEE / Python rounding). -/
def roundHalfEvenZ (q : ℚ) : ℤ :=
  let n := ratFloor q
  let frac := q - mkRat n 1
  if 1/2 < frac then n + 1
  else if frac < 1/2 then n
  else if n % 2 = 0 then n else n + 1

/-- The IEEE-754 binary64 value nearest to a positive rational `q` (round
to nearest, ties to even): the 53-bit significand in `[2^52, 2^53)` times
`2^(e-52)` where `2^e ≤ q < 2^(e+1)`.  Normal range only — the pipeline's
magnitudes (percentages to 亿-denominated sums) never approach the
subnormal or overflow thresholds. -/
def flPos (q : ℚ) : ℚ :=
  let a := q.num.natAbs
  let b := q.den
  let e0 : ℤ := (natLog2 a : ℤ) - (natLog2 b : ℤ)
  let e : ℤ := if q < pow2 e0 then e0 - 1 else e0
  let scale := pow2 (e - 52)
  mkRat (roundHalfEvenZ (q / scale)) 1 * scale

/-- The binary64 double nearest to `q` (round to nearest, ties to even). -/
def fl (q : ℚ) : ℚ :=
  if q = 0 then 0 else if q < 0 then -flPos (-q) else flPos q

/-- IEEE double division: the correctly rounded quotient. -/
def floatDiv (a b : ℚ) : ℚ := fl (a / b)

/-- IEEE double multiplication: the correctly rounded product. -/
def floatMul (a b : ℚ) : ℚ := fl (a * b)

/-- Line 379's double computation
`(margin_balance / total_market_cap) * 100`: each operation rounds to the
nearest double.  At `(350, 10000)` this is `3.5000000000000004`, strictly
above `3.5`. -/
def floatRatio (margin_balance total_market_cap : ℚ) : ℚ :=
  floatMul (floatDiv margin_balance total_market_cap) 100

/-- Python `round(x, 2)` on a double: the correctly rounded two-decimal
value (half to even on the exact value of `x`, then the nearest double).
A tie would need `x·100` to be half-odd-integral, impossible for a double
(its denominator is a power of two), so the tie rule never fires here. -/
def pyRound2 (x : ℚ) : ℚ := fl (mkRat (roundHalfEvenZ (x * 100)) 1 / 100)

/-- Python `"{:.0f}"`.format. -/
def fmt0 (q : ℚ) : String := toString (ratFloor (q + 1/2))

/-- Two decimal digits with a leading zero, for `fmt2`. -/
def twoDigits (r : ℕ) : String :=
  if r < 10 then "0" ++ toString r else toString r

/-- Python `"{:.2f}"`.format. -/
def fmt2 (q : ℚ) : String :=
  let n : ℤ := ratFloor (q * 100 + 1/2)
  let a := n.natAbs
  (if n < 0 then "-" else "") ++ toString (a / 100) ++ "." ++ twoDigits (a % 100)

/-- Python `"{:+.2f}"`.format. -/
def fmtPlus2 (q : ℚ) : String :=
  (if ratFloor (q * 100 + 1/2) < 0 then "" else "+") ++ fmt2 q

/-- `@dataclass MarketIndex` (the Python field `open` is `open_` here:
`open` is a Lean keyword). -/
structure MarketIndex where
  code : String
  name : String
  current : ℚ := 0
  change : ℚ := 0
  change_pct : ℚ := 0
  open_ : ℚ := 0
  high : ℚ := 0
  low : ℚ := 0
  prev_close : ℚ := 0
  volume : ℚ := 0
  amount : ℚ := 0
  amplitude : ℚ := 0
deriving DecidableEq, Repr

/-- One entry of `top_sectors` / `bottom_sectors` (a Python dict with keys
`name` and `change_pct`). -/
structure SectorEntry where
  name : String
  change_pct : ℚ
deriving DecidableEq, Repr

/-- One news item (only `title` and `snippet` are read downstream). -/
structure NewsItem where
  title : String
  snippet : String
deriving DecidableEq, Repr

/-- `@dataclass MarketOverview` with its Python default field values. -/
structure MarketOverview where
  date : String
  indices : List MarketIndex := []
  up_count : ℕ := 0
  down_count : ℕ := 0
  flat_count : ℕ := 0
  limit_up_count : ℕ := 0
  limit_down_count : ℕ := 0
  total_amount : ℚ := 0
  north_flow : ℚ := 0
  top_sectors : List SectorEntry := []
  bottom_sectors : List SectorEntry := []
  margin_balance : ℚ := 0
  total_market_cap : ℚ := 0
  margin_ratio : ℚ := 0
  is_bull_top_warning : Bool := false
  margin_data_date : String := ""
deriving DecidableEq, Repr

/-- `MarketAnalyzer.MAIN_INDICES`: the fixed ordered code → name table. -/
def MAIN_INDICES : List (String × String) :=
  [("sh000001", "上证指数"),
   ("sz399001", "深证成指"),
   ("sz399006", "创业板指"),
   ("sh000688", "科创50"),
   ("sh000016", "上证50"),
   ("sh000300", "沪深300")]

/-- `_get_bull_market_indicator`, given the two fetched aggregates (each
getter returns `0.0` on any failure, so "unavailable" arrives here as `0`).
The unrounded ratio is the double computation `floatRatio`; the warning
flag compares it (exactly) against `3.5`, and the stored ratio is Python's
`round(margin_ratio, 2)` on that double. -/
def getBullMarketIndicator (margin_balance total_market_cap : ℚ)
    (overview : MarketOverview) : MarketOverview :=
  if 0 < margin_balance ∧ 0 < total_market_cap then
    let margin_ratio := floatRatio margin_balance total_market_cap
    { overview with
      margin_balance := margin_balance
      total_market_cap := total_market_cap
      margin_ratio := pyRound2 margin_ratio
      is_bull_top_warning := decide (margin_ratio > 7/2) }
  else
    overview

/-- One row of the primary batch source `ak.stock_zh_index_spot_sina`
(column names in the source are Chinese; they are transliterated here).
`code` is the `代码` column; the numeric columns are 最新价, 涨跌额, 涨跌幅,
今开, 最高, 最低, 昨收, 成交量, 成交额 in order. -/
structure PrimaryRow where
  code : String
  latest_price : ℚ := 0
  change_amt : ℚ := 0
  change_pct : ℚ := 0
  today_open : ℚ := 0
  high : ℚ := 0
  low : ℚ := 0
  prev_close : ℚ := 0
  volume : ℚ := 0
  amount : ℚ := 0
deriving DecidableEq, Repr

/-- The row-matching step of `_get_main_indices`: first an exact `代码`
match, then `str.contains` (substring) as a fallback; `iloc[0]` takes the
first matching row. -/
def matchRow (df : List PrimaryRow) (code : String) : Option PrimaryRow :=
  match df.find? (fun r => r.code == code) with
  | some r => some r
  | none => df.find? (fun r => strContains code r.code)

/-- The `MarketIndex` built from a matched primary row, amplitude computed
only when the previous close is positive. -/
def buildPrimaryIndex (code name : String) (r : PrimaryRow) : MarketIndex :=
  let index : MarketIndex :=
    { code := code
      name := name
      current := r.latest_price
      change := r.change_amt
      change_pct := r.change_pct
      open_ := r.today_open
      high := r.high
      low := r.low
      prev_close := r.prev_close
      volume := r.volume
      amount := r.amount }
  if 0 < index.prev_close then
    { index with amplitude := (index.high - index.low) / index.prev_close * 100 }
  else
    index

/-- The primary half of `_get_main_indices`: the matching loop over
`MAIN_INDICES`, guarded by `df is not None and not df.empty` (`none` stands
for the retry wrapper having exhausted its attempts). -/
def primaryIndices (primary : Option (List PrimaryRow)) : List MarketIndex :=
  match primary with
  | none => []
  | some df =>
    if df.isEmpty then []
    else MAIN_INDICES.filterMap (fun cn =>
      (matchRow df cn.1).map (buildPrimaryIndex cn.1 cn.2))

/-- One point of a yfinance two-day price history. -/
structure HistPoint where
  hopen : ℚ := 0
  hhigh : ℚ := 0
  hlow : ℚ := 0
  hclose : ℚ := 0
  hvolume : ℚ := 0
deriving DecidableEq, Repr

/-- `yf_mapping` of `_get_indices_from_yfinance`: akshare code, yfinance
code, display name. -/
def yf_mapping : List (String × String × String) :=
  [("sh000001", "000001.SS", "上证指数"),
   ("sz399001", "399001.SZ", "深证成指"),
   ("sz399006", "399006.SZ", "创业板指"),
   ("sh000688", "000688.SS", "科创50"),
   ("sh000016", "000016.SS", "上证50"),
   ("sh000300", "000300.SS", "沪深300")]

/-- The per-ticker body of `_get_indices_from_yfinance`: empty history is
skipped; with one point the previous day is the current one (zero change);
`change_pct` guards against a zero previous close; `amount` stays `0.0`
(yfinance does not report it) and so does `amplitude` (not computed on this
path). -/
def buildFromHist (ak_code name : String) (hist : List HistPoint) :
    Option MarketIndex :=
  match hist.getLast? with
  | none => none
  | some today =>
    let prev := if 1 < hist.length then hist.dropLast.getLast?.getD today else today
    let price := today.hclose
    let prev_close := prev.hclose
    let change := price - prev_close
    let change_pct := if prev_close ≠ 0 then change / prev_close * 100 else 0
    some
      { code := ak_code
        name := name
        current := price
        change := change
        change_pct := change_pct
        open_ := today.hopen
        high := today.hhigh
        low := today.hlow
        prev_close := prev_close
        volume := today.hvolume
        amount := 0 }

/-- One iteration of the `_get_indices_from_yfinance` loop for the entry
`e = (ak_code, yf_code, name)`: the `ak_code not in MAIN_INDICES` guard,
then the fetch, whose exception (`Except.error`) is swallowed — that index
is skipped (`none`) and the loop continues with the next entry. -/
def yfEntry (fetch : String → Except Unit (List HistPoint))
    (e : String × String × String) : Option MarketIndex :=
  if MAIN_INDICES.any (fun cn => cn.1 == e.1) then
    match fetch e.2.1 with
    | Except.error _ => none
    | Except.ok hist => buildFromHist e.1 e.2.2 hist
  else
    none

/-- `_get_indices_from_yfinance`, with the per-ticker network call supplied
as `fetch : yfinance code → Except Unit (List HistPoint)`. -/
def getIndicesFromYfinance (fetch : String → Except Unit (List HistPoint)) :
    List MarketIndex :=
  yf_mapping.filterMap (yfEntry fetch)

/-- `_get_main_indices`: the primary batch source (already passed through
the retry wrapper, `none` = failed), then the yfinance fallback if and only
if the primary loop produced no index at all. -/
def getMainIndices (primary : Option (List PrimaryRow))
    (fetch : String → Except Unit (List HistPoint)) : List MarketIndex :=
  if (primaryIndices primary).isEmpty then getIndicesFromYfinance fetch
  else primaryIndices primary

/-- One row of the full-market table `ak.stock_zh_a_spot_em` after
`pd.to_numeric(..., errors="coerce")`: `none` is a `NaN` cell. -/
structure ASpotRow where
  change : Option ℚ := none
  amount : Option ℚ := none
deriving DecidableEq, Repr

/-- The full-market dataframe: its rows plus whether the 涨跌幅 and 成交额
columns are present at all. -/
structure ASpotDf where
  rows : List ASpotRow
  has_change_col : Bool := true
  has_amount_col : Bool := true
deriving DecidableEq, Repr

/-- Counts the rows whose (non-NaN) change satisfies `p`; a `NaN` row never
satisfies a pandas comparison, so it lands in no bucket. -/
def countChange (rows : List ASpotRow) (p : ℚ → Bool) : ℕ :=
  rows.countP (fun r => match r.change with
    | some v => p v
    | none => false)

/-- `_get_market_statistics`: breadth counts over the 涨跌幅 column (strict
`> 0`, `< 0`, `== 0`, limit at `≥ 9.9` / `≤ -9.9`), and the 成交额 sum
divided by `1e8`; `none` (retry exhausted) or an empty table leaves the
overview untouched.  Pandas `sum` skips `NaN` cells. -/
def getMarketStatistics (df : Option ASpotDf) (overview : MarketOverview) :
    MarketOverview :=
  match df with
  | none => overview
  | some t =>
    if t.rows.isEmpty then overview
    else
      let o1 :=
        if t.has_change_col then
          { overview with
            up_count := countChange t.rows (fun v => 0 < v)
            down_count := countChange t.rows (fun v => v < 0)
            flat_count := countChange t.rows (fun v => v == 0)
            limit_up_count := countChange t.rows (fun v => 99/10 ≤ v)
            limit_down_count := countChange t.rows (fun v => v ≤ -(99/10)) }
        else overview
      if t.has_amount_col then
        { o1 with total_amount := (t.rows.filterMap (·.amount)).sum / 100000000 }
      else o1

/-- The loop body of `_call_akshare_with_retry`, recursing on the number of
remaining loop iterations (`attempts - attempt + 1` at entry).  The second
component records every `time.sleep(min(2 ** attempt, 5))` performed, in
order. -/
def retryGo (fn : ℕ → Except Unit α) (attempts : ℕ) :
    ℕ → ℕ → Option α × List ℕ
  | _, 0 => (none, [])
  | attempt, r + 1 =>
    match fn attempt with
    | Except.ok a => (some a, [])
    | Except.error _ =>
      let rest := retryGo fn attempts (attempt + 1) r
      (rest.1, (if attempt < attempts then [min (2 ^ attempt) 5] else []) ++ rest.2)

/-- `_call_akshare_with_retry(fn, name, attempts=2)`: `fn k` is what the
wrapped call does on its `k`-th invocation (`k` starts at 1, as in
`range(1, attempts + 1)`).  Returns the result (`none` after exhaustion —
the boundary never re-raises) and the list of backoff sleeps. -/
def callAkshareWithRetry (fn : ℕ → Except Unit α) (attempts : ℕ) :
    Option α × List ℕ :=
  retryGo fn attempts 1 attempts

/-- The up/down glyph used by both report paths. -/
def directionGlyph (change_pct : ℚ) : String :=
  if 0 < change_pct then "↑" else if change_pct < 0 then "↓" else "-"

/-- One index line of `_build_review_prompt`. -/
def promptIndexLine (idx : MarketIndex) : String :=
  "- " ++ idx.name ++ ": " ++ fmt2 idx.current ++ " (" ++
    directionGlyph idx.change_pct ++ fmt2 |idx.change_pct| ++ "%)\n"

/-- The `indices_text` accumulator of `_build_review_prompt`: every index
of the snapshot, in order. -/
def promptIndicesText (overview : MarketOverview) : String :=
  overview.indices.foldl (fun acc idx => acc ++ promptIndexLine idx) ""

/-- One sector rendered for the prompt: `name(+x.xx%)`. -/
def sectorText (s : SectorEntry) : String :=
  s.name ++ "(" ++ fmtPlus2 s.change_pct ++ "%)"

/-- `top_sectors_text` of `_build_review_prompt` (first three sectors). -/
def topSectorsText (overview : MarketOverview) : String :=
  String.intercalate ", " ((overview.top_sectors.take 3).map sectorText)

/-- `bottom_sectors_text` of `_build_review_prompt`. -/
def bottomSectorsText (overview : MarketOverview) : String :=
  String.intercalate ", " ((overview.bottom_sectors.take 3).map sectorText)

/-- The `news_text` accumulator: the first six items, numbered from 1,
title truncated to 50 characters and snippet to 100. -/
def newsText (news : List NewsItem) : String :=
  ((news.take 6).enumFrom 1).foldl
    (fun acc p =>
      acc ++ toString p.1 ++ ". " ++ p.2.title.take 50 ++ "\n   " ++
        p.2.snippet.take 100 ++ "\n")
    ""

/-- `_format_margin_data_for_prompt` (the long interior spaces are the
literal indentation of the Python triple-quoted string). -/
def formatMarginDataForPrompt (overview : MarketOverview) : String :=
  if overview.margin_ratio ≤ 0 then "暂无数据"
  else
    let warning_text :=
      if overview.is_bull_top_warning then "【警告】触发逃顶信号！" else ""
    "- 两市融资余额: " ++ fmt0 overview.margin_balance ++
      ("亿\n                - 两市总市值: " ++ fmt0 overview.total_market_cap ++
        ("亿\n                - 融资/市值比: " ++ fmt2 overview.margin_ratio ++
          ("% (阈值: 3.5%)\n                " ++ warning_text)))

/-- `_build_review_prompt`: the full prompt text, with every f-string
placeholder substituted in source order. -/
def buildReviewPrompt (overview : MarketOverview) (news : List NewsItem) :
    String :=
  "你是一位专业的A股市场分析师，请根据以下数据生成一份简洁的大盘复盘报告。\n\n【重要】输出要求：\n- 必须输出纯 Markdown 文本格式\n- 禁止输出 JSON 格式\n- 禁止输出代码块\n- emoji 仅在标题处少量使用（每个标题最多1个）\n\n---\n\n# 今日市场数据\n\n## 日期\n"
    ++ overview.date
    ++ "\n\n## 主要指数\n"
    ++ (if promptIndicesText overview ≠ "" then promptIndicesText overview
        else "暂无指数数据（接口异常）")
    ++ "\n\n## 市场概况\n"
    ++ ("- 上涨: " ++ toString overview.up_count ++ " 家 | 下跌: " ++
        toString overview.down_count ++ " 家 | 平盘: " ++
        toString overview.flat_count ++ " 家\n")
    ++ ("- 涨停: " ++ toString overview.limit_up_count ++ " 家 | 跌停: " ++
        toString overview.limit_down_count ++ " 家\n")
    ++ ("- 两市成交额: " ++ fmt0 overview.total_amount ++ " 亿元\n")
    ++ ("- 北向资金: " ++ fmtPlus2 overview.north_flow ++ " 亿元\n")
    ++ "\n## 牛市逃顶指标\n"
    ++ formatMarginDataForPrompt overview
    ++ "\n\n## 板块表现\n领涨: "
    ++ (if topSectorsText overview ≠ "" then topSectorsText overview else "暂无数据")
    ++ "\n领跌: "
    ++ (if bottomSectorsText overview ≠ "" then bottomSectorsText overview else "暂无数据")
    ++ "\n\n## 市场新闻\n"
    ++ (if newsText news ≠ "" then newsText news else "暂无相关新闻")
    ++ "\n\n"
    ++ (if promptIndicesText overview = "" then
          "注意：由于行情数据获取失败，请主要根据【市场新闻】进行定性分析和总结，不要编造具体的指数点位。"
        else "")
    ++ "\n\n---\n\n# 输出格式模板（请严格按此格式输出）\n\n## 📊 "
    ++ overview.date
    ++ " 大盘复盘\n\n### 一、市场总结\n（2-3句话概括今日市场整体表现，包括指数涨跌、成交量变化）\n\n### 二、指数点评\n（分析上证、深证、创业板等各指数走势特点）\n\n### 三、资金动向\n（解读成交额和北向资金流向的含义）\n\n### 四、逃顶指标分析\n（分析融资余额/总市值比值，判断市场是否过热，是否触发逃顶警告）\n\n### 五、热点解读\n（分析领涨领跌板块背后的逻辑和驱动因素）\n\n### 六、后市展望\n（结合当前走势和新闻，给出明日市场预判）\n\n### 七、风险提示\n（需要关注的风险点，特别是如果逃顶指标异常需要重点提示）\n\n---\n\n请直接输出复盘报告内容，不要输出其他说明文字。\n"

/-- The `status`/`tip` pair of `_format_bull_top_indicator`: the warning
banner is keyed on the stored boolean flag, the lower tiers on the stored
(rounded) ratio. -/
def bullTopStatusTip (overview : MarketOverview) : String × String :=
  if overview.is_bull_top_warning then
    ("🔴 **警告：触发逃顶信号！**", "融资余额占比超过 3.5%，市场过热，建议谨慎操作")
  else if 3 < overview.margin_ratio then
    ("🟡 **关注：接近警戒线**", "融资余额占比接近 3.5%，市场情绪偏热")
  else if 5/2 < overview.margin_ratio then
    ("🟢 **正常：市场情绪适中**", "融资余额占比处于合理区间")
  else
    ("🟢 **安全：市场情绪偏冷**", "融资余额占比较低，市场相对安全")

/-- `_format_bull_top_indicator`: a "no data" sentence when the stored
ratio is not positive, otherwise the four-row Markdown table followed by
the banner and its advisory tip. -/
def formatBullTopIndicator (overview : MarketOverview) : String :=
  if overview.margin_ratio ≤ 0 then
    "暂无数据（融资余额或总市值数据获取失败）"
  else
    let st := bullTopStatusTip overview
    "| 指标 | 数值 |\n|------|------|\n| 两市融资余额 | " ++
      (fmt0 overview.margin_balance ++
        ("亿 |\n| 两市总市值 | " ++
          (fmt0 overview.total_market_cap ++
            ("亿 |\n| 融资/市值比 | **" ++
              (fmt2 overview.margin_ratio ++
                ("%** |\n| 逃顶阈值 | 3.5% |\n\n" ++
                  (st.1 ++ ("\n\n" ++ ("> 💡 " ++ st.2)))))))))

/-- The market-mood classification at the top of
`_generate_template_review`: `next(idx for idx in indices if idx.code ==
"000001")`, then the percent-change thresholds, `"震荡整理"` when no such
index exists. -/
def marketMood (overview : MarketOverview) : String :=
  match overview.indices.find? (fun idx => idx.code == "000001") with
  | some sh_index =>
    if 1 < sh_index.change_pct then "强势上涨"
    else if 0 < sh_index.change_pct then "小幅上涨"
    else if -1 < sh_index.change_pct then "小幅下跌"
    else "明显下跌"
  | none => "震荡整理"

/-- One index line of `_generate_template_review`. -/
def templateIndexLine (idx : MarketIndex) : String :=
  "- **" ++ idx.name ++ "**: " ++ fmt2 idx.current ++ " (" ++
    directionGlyph idx.change_pct ++ fmt2 |idx.change_pct| ++ "%)\n"

/-- The `indices_text` accumulator of `_generate_template_review`: only the
first four indices (`overview.indices[:4]`). -/
def templateIndicesText (overview : MarketOverview) : String :=
  (overview.indices.take 4).foldl (fun acc idx => acc ++ templateIndexLine idx) ""

/-- The `top_text` local of `_generate_template_review`: the first three
top-sector names joined with `、`. -/
def templateTopText (overview : MarketOverview) : String :=
  String.intercalate "、" ((overview.top_sectors.take 3).map (·.name))

/-- The `bottom_text` local of `_generate_template_review`. -/
def templateBottomText (overview : MarketOverview) : String :=
  String.intercalate "、" ((overview.bottom_sectors.take 3).map (·.name))

/-- `_generate_template_review`: the deterministic fallback report.  The
trailing wall-clock stamp `datetime.now().strftime("%H:%M")` is the `now`
argument; `news` is accepted and unused, as in the source. -/
def generateTemplateReview (overview : MarketOverview) (_news : List NewsItem)
    (now : String) : String :=
  "## 📊 " ++ overview.date
    ++ " 大盘复盘\n\n### 一、市场总结\n今日A股市场整体呈现**"
    ++ marketMood overview
    ++ "**态势。\n\n### 二、主要指数\n"
    ++ templateIndicesText overview
    ++ "\n\n### 三、涨跌统计\n| 指标 | 数值 |\n|------|------|\n"
    ++ ("| 上涨家数 | " ++ toString overview.up_count ++ " |\n")
    ++ ("| 下跌家数 | " ++ toString overview.down_count ++ " |\n")
    ++ ("| 涨停 | " ++ toString overview.limit_up_count ++ " |\n")
    ++ ("| 跌停 | " ++ toString overview.limit_down_count ++ " |\n")
    ++ ("| 两市成交额 | " ++ fmt0 overview.total_amount ++ "亿 |\n")
    ++ ("| 北向资金 | " ++ fmtPlus2 overview.north_flow ++ "亿 |\n")
    ++ "\n### 四、牛市逃顶指标\n"
    ++ formatBullTopIndicator overview
    ++ "\n\n### 五、板块表现\n- **领涨**: "
    ++ templateTopText overview
    ++ "\n- **领跌**: "
    ++ templateBottomText overview
    ++ "\n\n### 六、风险提示\n市场有风险，投资需谨慎。以上数据仅供参考，不构成投资建议。\n\n---\n*复盘时间: "
    ++ now
    ++ "*\n"

/-! ### Helper lemmas about string containment -/

lemma string_data_append (a b : String) : (a ++ b).data = a.data ++ b.data := rfl

lemma isPrefixOf_append_extend (p : List Char) :
    ∀ a b : List Char, p.isPrefixOf a = true → p.isPrefixOf (a ++ b) = true := by
  induction p with
  | nil => intro a b _; simp [List.isPrefixOf]
  | cons c t ih =>
    intro a b h
    cases a with
    | nil => simp [List.isPrefixOf] at h
    | cons x xs =>
      simp only [List.isPrefixOf, Bool.and_eq_true] at h
      simp only [List.cons_append, List.isPrefixOf, Bool.and_eq_true]
      exact ⟨h.1, ih xs b h.2⟩

lemma isPrefixOf_self_append (p b : List Char) : p.isPrefixOf (p ++ b) = true := by
  induction p with
  | nil => simp [List.isPrefixOf]
  | cons c t ih => simp [List.isPrefixOf, ih]

lemma listContains_of_isPrefixOf (p l : List Char) (h : p.isPrefixOf l = true) :
    listContains p l = true := by
  cases l with
  | nil =>
    cases p with
    | nil => rfl
    | cons c t => simp [List.isPrefixOf] at h
  | cons c t => simp [listContains, h]

lemma listContains_nil_left (l : List Char) : listContains [] l = true := by
  cases l with
  | nil => rfl
  | cons c t => simp [listContains, List.isPrefixOf]

lemma listContains_append_right (p : List Char) :
    ∀ a b : List Char, listContains p b = true → listContains p (a ++ b) = true := by
  intro a
  induction a with
  | nil => intro b h; simpa using h
  | cons c t ih =>
    intro b h
    simp only [List.cons_append, listContains, Bool.or_eq_true]
    exact Or.inr (ih b h)

lemma listContains_append_left (p : List Char) :
    ∀ a b : List Char, listContains p a = true → listContains p (a ++ b) = true := by
  intro a
  induction a with
  | nil =>
    intro b h
    have hp : p = [] := by
      cases p with
      | nil => rfl
      | cons c t => simp [listContains, List.isEmpty] at h
    subst hp
    exact listContains_nil_left b
  | cons c t ih =>
    intro b h
    simp only [listContains, Bool.or_eq_true] at h
    simp only [List.cons_append, listContains, Bool.or_eq_true]
    rcases h with h | h
    · exact Or.inl (by simpa using isPrefixOf_append_extend p (c :: t) b h)
    · exact Or.inr (ih b h)

lemma strContains_append_left (p a b : String) (h : strContains p a = true) :
    strContains p (a ++ b) = true := by
  unfold strContains at h ⊢
  rw [string_data_append]
  exact listContains_append_left _ _ _ h

lemma strContains_append_right (p a b : String) (h : strContains p b = true) :
    strContains p (a ++ b) = true := by
  unfold strContains at h ⊢
  rw [string_data_append]
  exact listContains_append_right _ _ _ h

lemma strContains_self_append (p b : String) : strContains p (p ++ b) = true := by
  unfold strContains
  rw [string_data_append]
  exact listContains_of_isPrefixOf _ _ (isPrefixOf_self_append _ _)

lemma strContains_self (p : String) : strContains p p = true := by
  have h := strContains_self_append p ""
  simpa using h

/-! ### The claims -/

/-- C1: if either fetched aggregate is zero (or unavailable, which the
getters report as `0.0`) then all four derived fields of the snapshot keep
their zero/false defaults; a nonzero ratio or a raised warning flag occurs
only when both inputs are strictly positive, in which case the stored ratio
is `round(margin_balance / total_market_cap * 100, 2)` — the quotient and
product being the program's double operations — and the flag is the strict
comparison of that unrounded double ratio with 3.5. -/
theorem bullIndicator_all_or_nothing (mb tc : ℚ) (o : MarketOverview)
    (hmb : o.margin_balance = 0) (htc : o.total_market_cap = 0)
    (hr : o.margin_ratio = 0) (hw : o.is_bull_top_warning = false) :
    ((¬ (0 < mb ∧ 0 < tc)) →
      (getBullMarketIndicator mb tc o).margin_balance = 0 ∧
      (getBullMarketIndicator mb tc o).total_market_cap = 0 ∧
      (getBullMarketIndicator mb tc o).margin_ratio = 0 ∧
      (getBullMarketIndicator mb tc o).is_bull_top_warning = false) ∧
    (((getBullMarketIndicator mb tc o).margin_ratio ≠ 0 ∨
        (getBullMarketIndicator mb tc o).is_bull_top_warning = true) →
      0 < mb ∧ 0 < tc) ∧
    (0 < mb → 0 < tc →
      (getBullMarketIndicator mb tc o).margin_ratio = pyRound2 (floatRatio mb tc) ∧
      (getBullMarketIndicator mb tc o).margin_balance = mb ∧
      (getBullMarketIndicator mb tc o).total_market_cap = tc ∧
      ((getBullMarketIndicator mb tc o).is_bull_top_warning = true ↔
        7/2 < floatRatio mb tc)) := by
  unfold getBullMarketIndicator
  by_cases h : 0 < mb ∧ 0 < tc
  · rw [if_pos h]
    refine ⟨fun hn => absurd h hn, fun _ => h, fun _ _ => ⟨rfl, rfl, rfl, ?_⟩⟩
    simp [decide_eq_true_eq, gt_iff_lt]
  · rw [if_neg h]
    refine ⟨fun _ => ⟨hmb, htc, hr, hw⟩, fun hc => ?_, fun h1 h2 => absurd ⟨h1, h2⟩ h⟩
    rcases hc with hc | hc
    · exact absurd hr hc
    · rw [hw] at hc; exact absurd hc (by simp)

/-- Witness for C1 at concrete inputs: the degraded case `(0, 10000)` keeps
the defaults, the positive case `(350, 10000)` stores the rounded ratio. -/
theorem bullIndicator_all_or_nothing_witness :
    (getBullMarketIndicator 0 10000 { date := "" }).margin_ratio = 0 ∧
    (getBullMarketIndicator 350 10000 { date := "" }).margin_ratio =
      pyRound2 (floatRatio 350 10000) := by
  refine ⟨((bullIndicator_all_or_nothing 0 10000 { date := "" } rfl rfl rfl rfl).1
      (by simp)).2.2.1, ?_⟩
  exact ((bullIndicator_all_or_nothing 350 10000 { date := "" } rfl rfl rfl rfl).2.2
      (by norm_num) (by norm_num)).1

/-- C2 counterexample: at margin balance 350 and market cap 10000 the
program's double ratio `(350.0 / 10000.0) * 100 = 3.5000000000000004`
strictly exceeds 3.5, so the warning flag is set — refuting the claim's
"warning flag false at exactly 3.5". -/
theorem bullIndicator_flag_raised_at_350 :
    (getBullMarketIndicator 350 10000 { date := "" }).is_bull_top_warning = true ∧
    floatRatio 350 10000 > 7/2 := by
  decide

/-- C2 (amended): at (350, 10000) the stored ratio is exactly 3.5 — the
two-decimal rounding of the double ratio — but that double ratio is
`3.5000000000000004 > 3.5`, so the warning flag is true; the rule is
strict `> 3.5` on the computed double, hence also true at 3.51
(inputs 351/10000, displayed "3.51"), and false when the double ratio
stays below 3.5 (inputs 349/10000). -/
theorem bullIndicator_boundary :
    (getBullMarketIndicator 350 10000 { date := "" }).margin_ratio = 7/2 ∧
    (getBullMarketIndicator 350 10000 { date := "" }).margin_ratio =
      pyRound2 (floatRatio 350 10000) ∧
    (getBullMarketIndicator 350 10000 { date := "" }).is_bull_top_warning = true ∧
    floatRatio 350 10000 = 7881299347898369/2251799813685248 ∧
    (getBullMarketIndicator 351 10000 { date := "" }).is_bull_top_warning = true ∧
    fmt2 (getBullMarketIndicator 351 10000 { date := "" }).margin_ratio = "3.51" ∧
    (getBullMarketIndicator 349 10000 { date := "" }).is_bull_top_warning = false := by
  decide

/-- C3 counterexample: run through the indicator at margin balance 34999
and market cap 1000000, the double ratio `3.4999000000000002` stays below
3.5 (flag clear) yet rounds to a stored ratio of exactly 3.5 — so
`ratio ≥ 3.5%` holds, but the rendered banner is the yellow "watch" one,
not the red "warning" one: the warning tier is keyed on the boolean flag
(strict `> 3.5` on the unrounded double ratio), not on the stored
`ratio ≥ 3.5`. -/
theorem bullTopBanner_at_rounded_threshold :
    (getBullMarketIndicator 34999 1000000 { date := "" }).margin_ratio ≥ 7/2 ∧
    (getBullMarketIndicator 34999 1000000 { date := "" }).is_bull_top_warning = false ∧
    (bullTopStatusTip (getBullMarketIndicator 34999 1000000 { date := "" })).1 =
      "🟡 **关注：接近警戒线**" ∧
    strContains "🟡 **关注：接近警戒线**"
      (formatBullTopIndicator (getBullMarketIndicator 34999 1000000 { date := "" })) = true ∧
    strContains "🔴 **警告：触发逃顶信号！**"
      (formatBullTopIndicator (getBullMarketIndicator 34999 1000000 { date := "" })) = false := by
  decide

/-- C3 (amended): for a rendered indicator (`0 < margin_ratio`) the section
is the four-row table (融资余额 / 总市值 / 比值 / 阈值 rows) followed by a
banner from exactly four tiers and its fixed advisory sentence; the
"warning" banner appears iff the stored warning flag is set (strict
`> 3.5` on the unrounded ratio), and with the flag clear the remaining
tiers are chosen by the stored ratio: `> 3.0` watch, `> 2.5` normal, else
cool. -/
theorem formatBullTopIndicator_tiers (o : MarketOverview) (h : 0 < o.margin_ratio) :
    ((bullTopStatusTip o).1 = "🔴 **警告：触发逃顶信号！**" ↔
      o.is_bull_top_warning = true) ∧
    (o.is_bull_top_warning = false →
      (((bullTopStatusTip o).1 = "🟡 **关注：接近警戒线**" ↔ 3 < o.margin_ratio) ∧
       ((bullTopStatusTip o).1 = "🟢 **正常：市场情绪适中**" ↔
         (o.margin_ratio ≤ 3 ∧ 5/2 < o.margin_ratio)) ∧
       ((bullTopStatusTip o).1 = "🟢 **安全：市场情绪偏冷**" ↔
         (o.margin_ratio ≤ 3 ∧ o.margin_ratio ≤ 5/2)))) ∧
    strContains "| 指标 | 数值 |\n|------|------|\n| 两市融资余额 | "
      (formatBullTopIndicator o) = true ∧
    strContains "| 两市总市值 | " (formatBullTopIndicator o) = true ∧
    strContains "| 融资/市值比 | **" (formatBullTopIndicator o) = true ∧
    strContains "%** |\n| 逃顶阈值 | 3.5% |" (formatBullTopIndicator o) = true ∧
    strContains ((bullTopStatusTip o).1) (formatBullTopIndicator o) = true ∧
    strContains ("> 💡 " ++ (bullTopStatusTip o).2) (formatBullTopIndicator o) = true := by
  have hne : ¬ o.margin_ratio ≤ 0 := not_le.mpr h
  have hfmt : formatBullTopIndicator o =
      "| 指标 | 数值 |\n|------|------|\n| 两市融资余额 | " ++
        (fmt0 o.margin_balance ++
          ("亿 |\n| 两市总市值 | " ++
            (fmt0 o.total_market_cap ++
              ("亿 |\n| 融资/市值比 | **" ++
                (fmt2 o.margin_ratio ++
                  ("%** |\n| 逃顶阈值 | 3.5% |\n\n" ++
                    ((bullTopStatusTip o).1 ++
                      ("\n\n" ++ ("> 💡 " ++ (bullTopStatusTip o).2))))))))) := by
    rw [formatBullTopIndicator, if_neg hne]
  refine ⟨?_, ?_, ?_, ?_, ?_, ?_, ?_, ?_⟩
  · cases hb : o.is_bull_top_warning with
    | true => simp [bullTopStatusTip, hb]
    | false =>
      simp only [Bool.false_eq_true, iff_false]
      unfold bullTopStatusTip
      rw [hb]
      split_ifs <;> simp_all
  · intro hb
    have e : bullTopStatusTip o =
        (if 3 < o.margin_ratio then
          ("🟡 **关注：接近警戒线**", "融资余额占比接近 3.5%，市场情绪偏热")
        else if 5/2 < o.margin_ratio then
          ("🟢 **正常：市场情绪适中**", "融资余额占比处于合理区间")
        else
          ("🟢 **安全：市场情绪偏冷**", "融资余额占比较低，市场相对安全")) := by
      unfold bullTopStatusTip
      rw [hb]
      simp
    by_cases h3 : 3 < o.margin_ratio
    · rw [e, if_pos h3]
      refine ⟨by simp [h3], ?_, ?_⟩
      · constructor
        · intro hs; exact absurd hs (by decide)
        · rintro ⟨h31, -⟩; exact absurd h3 (not_lt.mpr h31)
      · constructor
        · intro hs; exact absurd hs (by decide)
        · rintro ⟨h31, -⟩; exact absurd h3 (not_lt.mpr h31)
    · rw [e, if_neg h3]
      have h31 : o.margin_ratio ≤ 3 := not_lt.mp h3
      by_cases h52 : 5/2 < o.margin_ratio
      · rw [if_pos h52]
        refine ⟨by simp [h3], by simp [h31, h52], ?_⟩
        constructor
        · intro hs; exact absurd hs (by decide)
        · rintro ⟨-, h52le⟩; exact absurd h52 (not_lt.mpr h52le)
      · rw [if_neg h52]
        have h52le : o.margin_ratio ≤ 5/2 := not_lt.mp h52
        refine ⟨by simp [h3], ?_, by simp [h31, h52le]⟩
        constructor
        · intro hs; exact absurd hs (by decide)
        · rintro ⟨-, hgt⟩; exact absurd hgt (not_lt.mpr h52le)
  · rw [hfmt]; exact strContains_self_append _ _
  · rw [hfmt]
    apply strContains_append_right
    apply strContains_append_right
    apply strContains_append_left
    decide
  · rw [hfmt]
    apply strContains_append_right
    apply strContains_append_right
    apply strContains_append_right
    apply strContains_append_right
    apply strContains_append_left
    decide
  · rw [hfmt]
    apply strContains_append_right
    apply strContains_append_right
    apply strContains_append_right
    apply strContains_append_right
    apply strContains_append_right
    apply strContains_append_right
    apply strContains_append_left
    decide
  · rw [hfmt]
    apply strContains_append_right
    apply strContains_append_right
    apply strContains_append_right
    apply strContains_append_right
    apply strContains_append_right
    apply strContains_append_right
    apply strContains_append_right
    exact strContains_self_append _ _
  · rw [hfmt]
    apply strContains_append_right
    apply strContains_append_right
    apply strContains_append_right
    apply strContains_append_right
    apply strContains_append_right
    apply strContains_append_right
    apply strContains_append_right
    apply strContains_append_right
    apply strContains_append_right
    exact strContains_self _

/-- Witness for C3 at a concrete rendered indicator (ratio 3.2, flag
clear): the banner is the watch tier and the threshold row is in the
rendered section. -/
theorem formatBullTopIndicator_tiers_witness :
    (bullTopStatusTip (getBullMarketIndicator 320 10000 { date := "" })).1 =
      "🟡 **关注：接近警戒线**" ∧
    strContains "%** |\n| 逃顶阈值 | 3.5% |"
      (formatBullTopIndicator (getBullMarketIndicator 320 10000 { date := "" })) = true := by
  have hmain := formatBullTopIndicator_tiers
    (getBullMarketIndicator 320 10000 { date := "" })
    (by decide)
  refine ⟨((hmain.2.1 (by decide)).1).mpr
    (by decide), hmain.2.2.2.2.2.1⟩

/-- A primary-source row for the composite (Shanghai) index, as the Sina
batch endpoint reports it: its `代码` value is `sh000001`, and the day is a
`+2%` rally. -/
def shRowC4 : PrimaryRow :=
  { code := "sh000001", latest_price := 3882, change_amt := 76, change_pct := 2,
    today_open := 3810, high := 3890, low := 3795, prev_close := 3806,
    volume := 52300, amount := 61200 }

/-- C4 (code bug): the resolver stores the composite index under code
`sh000001` (the `MAIN_INDICES` key), but the mood classifier of
`_generate_template_review` looks for code `000001` exactly, so it falls to
`"震荡整理"` (choppy) even though the composite index is present in the
snapshot with a `+2%` (strong-rally) change. -/
theorem marketMood_composite_code_mismatch :
    (∃ i ∈ getMainIndices (some [shRowC4]) (fun _ => Except.error ()),
      i.code = "sh000001" ∧ i.name = "上证指数" ∧ 1 < i.change_pct) ∧
    (MAIN_INDICES.map Prod.fst).contains "sh000001" = true ∧
    marketMood
      { date := "2025-09-30",
        indices := getMainIndices (some [shRowC4]) (fun _ => Except.error ()) } =
      "震荡整理" := by
  decide

/-- The all-defaults snapshot: empty index list, zero breadth, no sectors,
no leverage data. -/
def emptyOverview : MarketOverview := { date := "2025-09-30" }

/-- C5 counterexample: on the empty snapshot the fallback report's index
section is empty (the 二/三 headers are adjacent), not an explicit "no
data" marker, and the risk-disclosure section is a fixed disclaimer that
contains no "no data" (`暂无`) marker either. -/
theorem templateReview_empty_sections_lack_marker :
    templateIndicesText emptyOverview = "" ∧
    strContains "### 二、主要指数\n\n\n### 三、涨跌统计"
      (generateTemplateReview emptyOverview [] "21:30") = true ∧
    strContains "### 六、风险提示\n市场有风险，投资需谨慎。以上数据仅供参考，不构成投资建议。\n\n---\n"
      (generateTemplateReview emptyOverview [] "21:30") = true ∧
    strContains "暂无"
      "### 六、风险提示\n市场有风险，投资需谨慎。以上数据仅供参考，不构成投资建议。\n\n---\n" = false := by
  decide

/-- C5 (amended): on the empty snapshot the fallback report's index section
renders empty (so it contains neither a marker nor any numeric index
level), the explicit "no data" marker appears in the leverage-indicator
section instead, and the risk-disclosure section is the fixed disclaimer
sentence. -/
theorem templateReview_empty_degrades :
    strContains "### 二、主要指数\n\n\n### 三、涨跌统计"
      (generateTemplateReview emptyOverview [] "21:30") = true ∧
    formatBullTopIndicator emptyOverview = "暂无数据（融资余额或总市值数据获取失败）" ∧
    strContains "### 四、牛市逃顶指标\n暂无数据（融资余额或总市值数据获取失败）"
      (generateTemplateReview emptyOverview [] "21:30") = true ∧
    strContains "### 六、风险提示\n市场有风险，投资需谨慎。"
      (generateTemplateReview emptyOverview [] "21:30") = true ∧
    templateIndicesText emptyOverview = "" := by
  decide

/-- Any index produced by `buildFromHist` carries the akshare code it was
built for. -/
lemma buildFromHist_code (akc nm : String) (hist : List HistPoint)
    (i : MarketIndex) (hi : buildFromHist akc nm hist = some i) : i.code = akc := by
  unfold buildFromHist at hi
  cases hl : hist.getLast? with
  | none => rw [hl] at hi; exact absurd hi (by simp)
  | some today =>
    rw [hl] at hi
    have := Option.some.inj hi
    rw [← this]

/-- Any index produced by a yfinance loop iteration carries the entry's
akshare code. -/
lemma yfEntry_code (fetch : String → Except Unit (List HistPoint))
    (e : String × String × String) (i : MarketIndex)
    (hi : yfEntry fetch e = some i) : i.code = e.1 := by
  unfold yfEntry at hi
  split at hi
  · split at hi
    · exact absurd hi (by simp)
    · exact buildFromHist_code _ _ _ _ hi
  · exact absurd hi (by simp)

/-- The failing entry of the fault-injected fetch yields nothing. -/
lemma yfEntry_err (fetch : String → Except Unit (List HistPoint)) (yfc : String)
    (e : String × String × String) (he : e.2.1 = yfc) :
    yfEntry (fun c => if c = yfc then Except.error () else fetch c) e = none := by
  unfold yfEntry
  rw [he]
  simp

/-- The other entries of the fault-injected fetch behave as before. -/
lemma yfEntry_ne (fetch : String → Except Unit (List HistPoint)) (yfc : String)
    (e : String × String × String) (he : ¬ e.2.1 = yfc) :
    yfEntry (fun c => if c = yfc then Except.error () else fetch c) e =
      yfEntry fetch e := by
  unfold yfEntry
  simp [he]

/-- A `filterMap` agreeing pointwise with a filtered `filterMap`. -/
lemma filterMap_filter_eq {α β : Type} (p : β → Bool) :
    ∀ (l : List α) (f g : α → Option β),
      (∀ a ∈ l, f a = match g a with
        | none => none
        | some b => if p b then some b else none) →
      l.filterMap f = (l.filterMap g).filter p := by
  intro l
  induction l with
  | nil => intro f g _; rfl
  | cons a t ih =>
    intro f g hp
    have ha := hp a (List.mem_cons_self a t)
    have ht : ∀ x ∈ t, f x = match g x with
        | none => none
        | some b => if p b then some b else none :=
      fun x hx => hp x (List.mem_cons_of_mem a hx)
    cases hg : g a with
    | none =>
      rw [hg] at ha
      simp only [List.filterMap_cons, ha, hg]
      exact ih f g ht
    | some b =>
      rw [hg] at ha
      have ha2 : f a = if p b = true then some b else none := ha
      by_cases hpb : p b = true
      · rw [if_pos hpb] at ha2
        simp only [List.filterMap_cons, ha2, hg, List.filter_cons, hpb, if_true]
        rw [ih f g ht]
      · rw [if_neg hpb] at ha2
        have hpb' : p b = false := by
          cases hv : p b
          · rfl
          · exact absurd hv hpb
        simp only [List.filterMap_cons, ha2, hg, List.filter_cons, hpb']
        simp only [Bool.false_eq_true, if_false]
        exact ih f g ht

/-- In `yf_mapping`, two entries agree on the yfinance code exactly when
they agree on the akshare code (the table is a bijection). -/
lemma yf_mapping_consistent :
    ∀ x ∈ yf_mapping, ∀ a ∈ yf_mapping,
      (a.2.1 = x.2.1 ∧ a.1 = x.1) ∨ (¬ a.2.1 = x.2.1 ∧ ¬ a.1 = x.1) := by
  decide

/-- C6: the yfinance fallback runs if and only if the primary loop matched
zero indices (`none` covers both an empty/failed primary fetch); with at
least one primary match the result is the primary list and the secondary
source is never consulted (the result is the same for any two secondary
fetches); and a single failing secondary lookup only removes that entry's
index from the fallback list, leaving every other lookup intact. -/
theorem indexResolver_fallback_and_isolation :
    (∀ (primary : Option (List PrimaryRow))
       (fetch fetch' : String → Except Unit (List HistPoint)),
       primaryIndices primary ≠ [] →
         getMainIndices primary fetch = primaryIndices primary ∧
         getMainIndices primary fetch = getMainIndices primary fetch') ∧
    (∀ (primary : Option (List PrimaryRow))
       (fetch : String → Except Unit (List HistPoint)),
       primaryIndices primary = [] →
         getMainIndices primary fetch = getIndicesFromYfinance fetch) ∧
    (∀ (fetch : String → Except Unit (List HistPoint)) (akc yfc nm : String),
       (akc, yfc, nm) ∈ yf_mapping →
         getIndicesFromYfinance (fun c => if c = yfc then Except.error () else fetch c)
           = (getIndicesFromYfinance fetch).filter (fun i => i.code != akc)) := by
  refine ⟨?_, ?_, ?_⟩
  · intro primary fetch fetch' hne
    have hemp : (primaryIndices primary).isEmpty = false := by
      cases hl : primaryIndices primary with
      | nil => exact absurd hl hne
      | cons x xs => rfl
    unfold getMainIndices
    rw [hemp]
    simp
  · intro primary fetch he
    unfold getMainIndices
    rw [he]
    rfl
  · intro fetch akc yfc nm hmem
    unfold getIndicesFromYfinance
    apply filterMap_filter_eq
    intro a ha
    rcases yf_mapping_consistent (akc, yfc, nm) hmem a ha with ⟨hyf, hak⟩ | ⟨hyf, hak⟩
    · rw [yfEntry_err fetch yfc a hyf]
      cases hg : yfEntry fetch a with
      | none => rfl
      | some i =>
        have hc : i.code = a.1 := yfEntry_code fetch a i hg
        simp [hc, hak]
    · rw [yfEntry_ne fetch yfc a hyf]
      cases hg : yfEntry fetch a with
      | none => rfl
      | some i =>
        have hc : i.code = a.1 := yfEntry_code fetch a i hg
        simp [hc, hak]

/-- Three of the six tracked codes, as a partial primary result. -/
def dfPartialC6 : List PrimaryRow :=
  [{ code := "sh000001", latest_price := 3882, change_pct := 1/2,
     prev_close := 3860, high := 3890, low := 3850 },
   { code := "sz399001", latest_price := 13200, change_pct := -(1/2),
     prev_close := 13260, high := 13280, low := 13150 },
   { code := "sh000300", latest_price := 4600, change_pct := 1,
     prev_close := 4555, high := 4610, low := 4550 }]

/-- A secondary fetch that succeeds with a two-point history for every
ticker. -/
def fetchC6 : String → Except Unit (List HistPoint) :=
  fun _ => Except.ok
    [{ hopen := 10, hhigh := 11, hlow := 9, hclose := 10, hvolume := 100 },
     { hopen := 10, hhigh := 12, hlow := 10, hclose := 11, hvolume := 120 }]

/-- Witness for C6: a partial (3-of-6) primary match is returned as is with
no fallback; an absent primary triggers the fallback; and failing the
composite index's secondary lookup removes exactly that index. -/
theorem indexResolver_fallback_witness :
    getMainIndices (some dfPartialC6) fetchC6 = primaryIndices (some dfPartialC6) ∧
    (primaryIndices (some dfPartialC6)).length = 3 ∧
    getMainIndices none fetchC6 = getIndicesFromYfinance fetchC6 ∧
    getIndicesFromYfinance
        (fun c => if c = "000001.SS" then Except.error () else fetchC6 c) =
      (getIndicesFromYfinance fetchC6).filter (fun i => i.code != "sh000001") := by
  refine ⟨(indexResolver_fallback_and_isolation.1 (some dfPartialC6) fetchC6 fetchC6
      (by decide)).1,
    by decide,
    indexResolver_fallback_and_isolation.2.1 none fetchC6 rfl,
    indexResolver_fallback_and_isolation.2.2 fetchC6 "sh000001" "000001.SS" "上证指数"
      (by decide)⟩

/-- C7 counterexample: the never-populated north-bound-flow field (default
`0`) is rendered by both report paths as the numeric figure `+0.00`, and
the north-flow line carries no "no data" (`暂无`) marker. -/
theorem northFlow_zero_figure :
    strContains "- 北向资金: +0.00 亿元" (buildReviewPrompt emptyOverview []) = true ∧
    strContains "| 北向资金 | +0.00亿 |"
      (generateTemplateReview emptyOverview [] "21:30") = true ∧
    strContains "暂无"
      ("- 北向资金: " ++ fmtPlus2 emptyOverview.north_flow ++ " 亿元\n") = false ∧
    strContains "暂无"
      ("| 北向资金 | " ++ fmtPlus2 emptyOverview.north_flow ++ "亿 |\n") = false := by
  decide

/-- C7 (amended): for every snapshot whose north-bound-flow field holds its
never-populated default `0`, the generative prompt and the fallback report
both render it as the numeric zero-flow figure `+0.00`, not as a "no data"
marker. -/
theorem northFlow_rendered_as_zero (o : MarketOverview) (news : List NewsItem)
    (t : String) (h : o.north_flow = 0) :
    strContains "- 北向资金: +0.00 亿元" (buildReviewPrompt o news) = true ∧
    strContains "| 北向资金 | +0.00亿 |" (generateTemplateReview o news t) = true := by
  constructor
  · unfold buildReviewPrompt
    iterate 13 apply strContains_append_left
    apply strContains_append_right
    rw [h]
    decide
  · unfold generateTemplateReview
    iterate 9 apply strContains_append_left
    apply strContains_append_right
    rw [h]
    decide

/-- Witness for C7 at a concrete snapshot. -/
theorem northFlow_rendered_as_zero_witness :
    strContains "- 北向资金: +0.00 亿元"
      (buildReviewPrompt { date := "2025-10-01" } []) = true ∧
    strContains "| 北向资金 | +0.00亿 |"
      (generateTemplateReview { date := "2025-10-01" } [] "09:00") = true :=
  northFlow_rendered_as_zero { date := "2025-10-01" } [] "09:00" rfl

/-- The breadth table of the spec's test vector: percent changes
`[10.0, 9.9, 5, 0, -3, -9.9, -10, NaN]`. -/
def c8Table : ASpotDf :=
  { rows := [{ change := some 10 }, { change := some (99/10) },
             { change := some 5 }, { change := some 0 },
             { change := some (-3) }, { change := some (-(99/10)) },
             { change := some (-10) }, { change := none }] }

/-- C8: on that table the breadth calculator counts up=3, down=3, flat=1,
limit-up=2 (`≥ 9.9`), limit-down=2 (`≤ -9.9`), the NaN row landing in no
bucket (3+3+1 = 7 of 8 rows). -/
theorem breadth_counts_with_nan :
    (getMarketStatistics (some c8Table) { date := "2025-09-30" }).up_count = 3 ∧
    (getMarketStatistics (some c8Table) { date := "2025-09-30" }).down_count = 3 ∧
    (getMarketStatistics (some c8Table) { date := "2025-09-30" }).flat_count = 1 ∧
    (getMarketStatistics (some c8Table) { date := "2025-09-30" }).limit_up_count = 2 ∧
    (getMarketStatistics (some c8Table) { date := "2025-09-30" }).limit_down_count = 2 ∧
    c8Table.rows.length = 8 := by
  decide

/-- The retry loop starting at `attempt` with `r` iterations of fuel left:
if the first success inside the window is at attempt `k`, it returns that
result, having slept `min(2^j, 5)` after each failed attempt `j < k`. -/
lemma retryGo_first_success {α : Type} (fn : ℕ → Except Unit α) (attempts : ℕ)
    (a : α) :
    ∀ (r attempt k : ℕ), attempt ≤ k → k < attempt + r → k ≤ attempts →
      fn k = Except.ok a →
      (∀ j, attempt ≤ j → j < k → fn j = Except.error ()) →
      retryGo fn attempts attempt r =
        (some a, (List.range' attempt (k - attempt)).map (fun j => min (2 ^ j) 5)) := by
  intro r
  induction r with
  | zero => intro attempt k h1 h2 _ _ _; omega
  | succ n ih =>
    intro attempt k h1 h2 h3 hok hfail
    by_cases hak : attempt = k
    · subst hak
      simp only [retryGo, hok, Nat.sub_self, List.range', List.map_nil]
    · have hlt : attempt < k := lt_of_le_of_ne h1 hak
      have herr : fn attempt = Except.error () := hfail attempt le_rfl hlt
      simp only [retryGo, herr]
      rw [ih (attempt + 1) k hlt (by omega) h3 hok
        (fun j hj1 hj2 => hfail j (by omega) hj2)]
      have hsl : attempt < attempts := lt_of_lt_of_le hlt h3
      rw [if_pos hsl]
      have hkk : k - attempt = (k - (attempt + 1)) + 1 := by omega
      rw [hkk, List.range']
      rfl

/-- The retry loop when every attempt in the window fails: it returns
`none`, having slept after every failed attempt but the last. -/
lemma retryGo_all_fail {α : Type} (fn : ℕ → Except Unit α) (attempts : ℕ) :
    ∀ (r attempt : ℕ), attempt + r = attempts + 1 →
      (∀ j, attempt ≤ j → j ≤ attempts → fn j = Except.error ()) →
      retryGo fn attempts attempt r =
        (none, (List.range' attempt (attempts - attempt)).map (fun j => min (2 ^ j) 5)) := by
  intro r
  induction r with
  | zero =>
    intro attempt h1 _
    have h0 : attempts - attempt = 0 := by omega
    rw [h0]
    rfl
  | succ n ih =>
    intro attempt h1 hfail
    have hle : attempt ≤ attempts := by omega
    have herr : fn attempt = Except.error () := hfail attempt le_rfl hle
    simp only [retryGo, herr]
    rw [ih (attempt + 1) (by omega) (fun j hj1 hj2 => hfail j (by omega) hj2)]
    by_cases hlt : attempt < attempts
    · rw [if_pos hlt]
      have hkk : attempts - attempt = (attempts - (attempt + 1)) + 1 := by omega
      rw [hkk, List.range']
      rfl
    · rw [if_neg hlt]
      have h0 : attempts - attempt = 0 := by omega
      have h0' : attempts - (attempt + 1) = 0 := by omega
      rw [h0, h0']
      rfl

/-- C9: the retry wrapper returns the wrapped operation's result at its
first successful attempt, sleeping `min(2^attempt, 5)` after each failed
attempt before the last; and when every attempt up to the configured count
fails it returns the explicit no-data result `none` (by construction no
exception crosses this boundary: the `Except` outcome is consumed here). -/
theorem callAkshareWithRetry_contract {α : Type} (fn : ℕ → Except Unit α)
    (attempts : ℕ) :
    (∀ (k : ℕ) (a : α), 1 ≤ k → k ≤ attempts → fn k = Except.ok a →
      (∀ j, 1 ≤ j → j < k → fn j = Except.error ()) →
      callAkshareWithRetry fn attempts =
        (some a, (List.range' 1 (k - 1)).map (fun j => min (2 ^ j) 5))) ∧
    ((∀ j, 1 ≤ j → j ≤ attempts → fn j = Except.error ()) →
      callAkshareWithRetry fn attempts =
        (none, (List.range' 1 (attempts - 1)).map (fun j => min (2 ^ j) 5))) := by
  constructor
  · intro k a h1 h2 hok hfail
    unfold callAkshareWithRetry
    exact retryGo_first_success fn attempts a attempts 1 k h1 (by omega) h2 hok hfail
  · intro hfail
    unfold callAkshareWithRetry
    exact retryGo_all_fail fn attempts attempts 1 (by omega) hfail

/-- Witness for C9 with the default `attempts = 2`: success at the second
attempt returns it after one backoff sleep of `min(2^1, 5) = 2`; two
failures return `none` after the same single sleep. -/
theorem callAkshareWithRetry_contract_witness :
    callAkshareWithRetry (fun j => if j = 2 then Except.ok (7 : ℕ) else Except.error ()) 2 =
      (some 7, [2]) ∧
    callAkshareWithRetry (fun _ : ℕ => (Except.error () : Except Unit ℕ)) 2 =
      (none, [2]) := by
  constructor
  · have h := (callAkshareWithRetry_contract
        (fun j => if j = 2 then Except.ok (7 : ℕ) else Except.error ()) 2).1 2 7
        (by omega) (by omega) (by simp)
        (fun j hj1 hj2 => by
          have hj : j = 1 := by omega
          subst hj
          simp)
    simpa [List.range'] using h
  · have h := (callAkshareWithRetry_contract
        (fun _ : ℕ => (Except.error () : Except Unit ℕ)) 2).2
        (fun _ _ _ => rfl)
    simpa [List.range'] using h

/-- C10: appending a fifth (or later) index to a snapshot that already has
four leaves the fallback report's index section unchanged (only
`indices[:4]` is rendered), while the generative prompt's index block gains
exactly that index's line at its end. -/
theorem template_truncates_prompt_embeds (o : MarketOverview)
    (extra : MarketIndex) (h : 4 ≤ o.indices.length) :
    templateIndicesText { o with indices := o.indices ++ [extra] } =
      templateIndicesText o ∧
    promptIndicesText { o with indices := o.indices ++ [extra] } =
      promptIndicesText o ++ promptIndexLine extra := by
  constructor
  · unfold templateIndicesText
    dsimp only
    rw [List.take_append_of_le_length h]
  · unfold promptIndicesText
    dsimp only
    rw [List.foldl_append]
    rfl

/-- A snapshot with the four rendered indices. -/
def overviewC10 : MarketOverview :=
  { date := "2025-09-30",
    indices :=
      [{ code := "sh000001", name := "上证指数", current := 3882, change_pct := 1/2 },
       { code := "sz399001", name := "深证成指", current := 13200, change_pct := -(1/2) },
       { code := "sz399006", name := "创业板指", current := 3100, change_pct := 2 },
       { code := "sh000688", name := "科创50", current := 1400, change_pct := -1 }] }

/-- The fifth index of the C10 witness. -/
def extraC10 : MarketIndex :=
  { code := "sh000016", name := "上证50", current := 2712, change_pct := -(1/4) }

/-- Witness for C10: with four indices present, the fifth is dropped from
the fallback report's index section and appended to the prompt's. -/
theorem template_truncates_prompt_embeds_witness :
    templateIndicesText { overviewC10 with indices := overviewC10.indices ++ [extraC10] } =
      templateIndicesText overviewC10 ∧
    promptIndicesText { overviewC10 with indices := overviewC10.indices ++ [extraC10] } =
      promptIndicesText overviewC10 ++ promptIndexLine extraC10 :=
  template_truncates_prompt_embeds overviewC10 extraC10 (by decide)

end MarketAnalyzer
